import Mathlib

/-!
Verification of the AVM2 core of this repository (`core/src/avm2.rs`,
`core/src/avm2/globals.rs` and the `flash` builtin modules) against its
natural-language specification.

The Rust code is shallowly embedded: GC-managed objects are identified by
`Nat` ids (pointer identity becomes id equality), the `HashMap` broadcast
registry becomes an association list, fallible code returns `Except`, and
side effects (log warnings, trait installation, class-initializer runs)
are recorded explicitly in the state so that temporal claims can be stated
about them.  A few callees of the embedded functions live in repository
files that are not part of the supplied sources (`events.rs`, `domain.rs`,
`script.rs`, `object.rs`); each such callee is modelled from the spec and
its doc comment says so.
-/

namespace RuffleAvm2

/-- AVM2 `Value` (spec section 3): a tagged union over Undefined, Null,
Boolean, 32-bit signed Integer, 32-bit Unsigned, IEEE-754 Number (carried
here as its 64 bit pattern, since no claim performs float arithmetic),
interned String, Namespace and Object (identified by its GC id). -/
inductive Value where
  | undefined
  | null
  | boolean (b : Bool)
  | integer (i : Int)
  | unsigned (u : Nat)
  | number (bits : Nat)
  | string (s : String)
  | namespaceV (uri : String)
  | object (id : Nat)
deriving DecidableEq, Repr

/-! ## Event dispatch (`Avm2::dispatch_event`, avm2.rs lines 153-169)

The wrapper in `avm2.rs` wraps the event payload in an `EventObject` and
delegates to `events::dispatch_event`, whose body is in `events.rs`, a file
not among the supplied sources.  The dispatch process is therefore modelled
from the spec, section 4.8. -/

/-- Event payload (`Event` in events.rs, exposed by avm2.rs): carries its
event type string. -/
structure Event where
  event_type : String
deriving DecidableEq, Repr

/-- One registered event listener: the event type and capture flag it was
registered with, and the effect its handler has on the event object
(whether it calls `preventDefault`, `stopPropagation`,
`stopImmediatePropagation`). -/
structure Listener where
  event_type : String
  use_capture : Bool
  prevents_default : Bool
  stops_propagation : Bool
  stops_immediate : Bool
deriving DecidableEq, Repr

/-- Mutable state of the event object during dispatch: whether the default
action has been cancelled and whether propagation has been stopped (after
the current node, or immediately). -/
structure EventState where
  cancelled : Bool
  propagation_stopped : Bool
  immediate_stopped : Bool
deriving DecidableEq, Repr

/-- Apply one listener's side effects to the event state. -/
def runListener (st : EventState) (l : Listener) : EventState :=
  { cancelled := st.cancelled || l.prevents_default
    propagation_stopped := st.propagation_stopped || l.stops_propagation || l.stops_immediate
    immediate_stopped := st.immediate_stopped || l.stops_immediate }

/-- Modelled from the spec (section 4.8): invoke the listeners of one node
whose (type, useCapture) pair matches, in registration order, stopping
within the node only on `stopImmediatePropagation`. -/
def runNode (st : EventState) (etype : String) (capture_phase : Bool) :
    List Listener → EventState
  | [] => st
  | l :: rest =>
    if st.immediate_stopped then st
    else if l.event_type == etype && l.use_capture == capture_phase then
      runNode (runListener st l) etype capture_phase rest
    else runNode st etype capture_phase rest

/-- Modelled from the spec (section 4.8): run one phase over a list of
nodes, stopping between nodes once propagation is stopped. -/
def runPhase (etype : String) (capture_phase : Bool) :
    List (List Listener) → EventState → EventState
  | [], st => st
  | node :: rest, st =>
    if st.propagation_stopped then st
    else runPhase etype capture_phase rest (runNode st etype capture_phase node)

/-- Modelled from the spec (section 4.8): `events::dispatch_event` (its
body is in events.rs, not among the supplied sources).  Determine phases
capture → target → bubble over the target's display-list ancestry
(`ancestry` is listed root first) and run the matching listeners at each
node. -/
def dispatch_event_inner (ancestry : List (List Listener))
    (target : List Listener) (event : Event) : EventState :=
  let st0 : EventState := ⟨false, false, false⟩
  let st1 := runPhase event.event_type true ancestry st0
  let st2 :=
    if st1.propagation_stopped then st1
    else runNode st1 event.event_type false target
  if st2.propagation_stopped then st2
  else runPhase event.event_type false ancestry.reverse st2

/-- `Avm2::dispatch_event` (avm2.rs lines 153-169): wrap the event in an
event object and dispatch it on the target; the returned `Bool` is the
result of `events::dispatch_event`, modelled from the spec (section 4.8):
"Returns `true` iff the event's default was not cancelled."  The final
event-object state is returned alongside so the claim can refer to it. -/
def dispatch_event (ancestry : List (List Listener)) (target : List Listener)
    (event : Event) : Bool × EventState :=
  let st := dispatch_event_inner ancestry target event
  (!st.cancelled, st)

/-! ## The operand stack (`Avm2::push` / `Avm2::pop`, avm2.rs 290-308) -/

/-- The operand-stack portion of the `Avm2` interpreter state, together
with the warning log emitted through `log::warn!`.  The source stores the
stack in a `Vec` with the top at the end; here the top is at the head. -/
structure Avm2Stack where
  stack : List Value
  warnings : List String
deriving DecidableEq, Repr

/-- `Avm2::push` (avm2.rs lines 291-295): push a value onto the operand
stack.  (`avm_debug!` tracing is debug-only output and is not part of the
warning log.) -/
def push (s : Avm2Stack) (value : Value) : Avm2Stack :=
  { s with stack := value :: s.stack }

/-- `Avm2::pop` (avm2.rs lines 299-308): retrieve the top-most value; on
an empty stack, log the warning `Avm1::pop: Stack underflow` (sic — the
message in the source says `Avm1`) and return `Value::Undefined`. -/
def pop (s : Avm2Stack) : Value × Avm2Stack :=
  match s.stack with
  | [] => (Value.undefined,
      { s with warnings := s.warnings ++ ["Avm1::pop: Stack underflow"] })
  | v :: rest => (v, { s with stack := rest })

/-! ## `flash.system.Capabilities` (capabilities.rs) -/

/-- `capabilities::instance_init` (capabilities.rs lines 13-19):
`flash.system.Capabilities`'s instance constructor, which unconditionally
returns an error. -/
def capabilities_instance_init {α : Type} (_activation : α)
    (_this : Option Nat) (_args : List Value) : Except String Value :=
  Except.error "The Capabilities class cannot be constructed."

/-- `capabilities::class_init` (capabilities.rs lines 22-28):
`flash.system.Capabilities`'s class constructor. -/
def capabilities_class_init {α : Type} (_activation : α)
    (_this : Option Nat) (_args : List Value) : Except String Value :=
  Except.ok Value.undefined

/-! ## ABC loading (`Avm2::load_abc`, avm2.rs lines 263-284)

The slice decoding is performed by the external ABC decoder (spec section
6), so the model takes the number of declared scripts of the decoded file.
`TranslationUnit::load_script` and `Script::globals` live in script.rs,
which is not among the supplied sources; they are modelled from the spec
(section 4.7) as a registration event and an initializer-trigger event,
and the model records the sequence of those events. -/

/-- Observable steps of `Avm2::load_abc`: registering script `i` in the
translation unit (`tunit.load_script(i)`), and triggering script `i`'s
globals/initializer (`script.globals(context)`). -/
inductive AbcScriptEvent where
  | registerScript (i : Nat)
  | initScript (i : Nat)
deriving DecidableEq, Repr

/-- Body of the `load_abc` loop over an index sequence: for each index,
register the script, then — only when `lazy_init` is false — trigger its
globals immediately. -/
def loadScriptsLoop (lazy_init : Bool) : List Nat → List AbcScriptEvent
  | [] => []
  | i :: rest =>
    (if lazy_init then [AbcScriptEvent.registerScript i]
     else [AbcScriptEvent.registerScript i, AbcScriptEvent.initScript i])
      ++ loadScriptsLoop lazy_init rest

/-- `Avm2::load_abc` (avm2.rs lines 263-284): iterate the ABC file's
scripts in reverse order of declaration (`for i in (0..len).rev()`),
registering each and eagerly initializing it unless `lazy_init`. -/
def load_abc (num_scripts : Nat) (lazy_init : Bool) : List AbcScriptEvent :=
  loadScriptsLoop lazy_init (List.range num_scripts).reverse

/-- Index of a registration event, for extracting the registration order. -/
def regIndex : AbcScriptEvent → Option Nat
  | .registerScript i => some i
  | _ => none

/-- Index of an initializer-trigger event. -/
def initIndex : AbcScriptEvent → Option Nat
  | .initScript i => some i
  | _ => none

/-! ## The broadcast registry (avm2.rs lines 54, 171-241)

`Avm2.broadcast_list` is a `HashMap<AvmString, Vec<Object>>`; it is
embedded as an association list from event-name strings to lists of object
ids (pointer identity of `Object` becomes id equality, matching
`Object::ptr_eq`). -/

/-- `BROADCAST_WHITELIST` (avm2.rs line 54). -/
def BROADCAST_WHITELIST : List String := ["enterFrame", "exitFrame", "frameConstructed"]

/-- The broadcast registry: event name → list of registered object ids. -/
abbrev BroadcastList := List (String × List Nat)

/-- Look an event name up in the registry (`HashMap::get`). -/
def lookupBucket : BroadcastList → String → Option (List Nat)
  | [], _ => none
  | (k, v) :: rest, name => if k = name then some v else lookupBucket rest name

/-- Replace an event name's bucket, or add it if absent
(`HashMap::insert`-like write-back of a bucket). -/
def setBucket : BroadcastList → String → List Nat → BroadcastList
  | [], name, b => [(name, b)]
  | (k, v) :: rest, name, b =>
    if k = name then (name, b) :: rest else (k, v) :: setBucket rest name b

/-- `HashMap::entry(name).or_default()`: make sure the event name has a
bucket, inserting an empty one if absent. -/
def ensureBucket (r : BroadcastList) (name : String) : BroadcastList :=
  match lookupBucket r name with
  | some _ => r
  | none => r ++ [(name, [])]

/-- The bucket currently stored for an event name (empty if absent). -/
def bucketOf (r : BroadcastList) (name : String) : List Nat :=
  (lookupBucket r name).getD []

/-- `Avm2::register_broadcast_listener` (avm2.rs lines 180-196): a no-op
for a non-whitelisted event name; otherwise ensure the event's bucket
exists, and push the object unless an identical (`Object::ptr_eq`) entry
is already present. -/
def register_broadcast_listener (r : BroadcastList) (object : Nat)
    (event_name : String) : BroadcastList :=
  if !(BROADCAST_WHITELIST.any fun x => x == event_name) then r
  else
    let r1 := ensureBucket r event_name
    let bucket := bucketOf r1 event_name
    if bucket.any fun x => x == object then r1
    else setBucket r1 event_name (bucket ++ [object])

/-- Model of one `Avm2::dispatch_event` call made from the broadcast pump.
The handlers a dispatch runs are arbitrary script code, but the only
operation of the embedded API that mutates the broadcast registry is
`register_broadcast_listener` (avm2.rs defines no removal), so a
dispatch's effect on the registry is a sequence of registration calls
(depending on the current registry and the receiver), plus a success
flag (`false` models the dispatch returning `Err`, which aborts the
pump). -/
def DispatchModel : Type := BroadcastList → Nat → List (Nat × String) × Bool

/-- Apply a sequence of registration calls to the registry. -/
def applyRegisters (r : BroadcastList) : List (Nat × String) → BroadcastList
  | [] => r
  | (o, n) :: rest => applyRegisters (register_broadcast_listener r o n) rest

/-- Result of a `broadcast_event` pump: the objects dispatched to in
order, the final registry, and whether the pump completed without a
dispatch error. -/
structure BroadcastResult where
  dispatched : List Nat
  registry : BroadcastList
  ok : Bool
deriving DecidableEq, Repr

/-- The `for i in 0..el_length` loop of `Avm2::broadcast_event` (avm2.rs
lines 224-238): re-read the event's bucket each iteration, fetch index
`i` (`get(i).copied()`), and when an object is there and `is_of_type
on_type` holds, dispatch the event to it. -/
def broadcastLoop (h : DispatchModel) (pred : Nat → Bool) (name : String) :
    List Nat → BroadcastList → List Nat → BroadcastResult
  | [], r, acc => ⟨acc.reverse, r, true⟩
  | i :: rest, r, acc =>
    match (bucketOf r name)[i]? with
    | none => broadcastLoop h pred name rest r acc
    | some object =>
      if pred object then
        let (effects, okFlag) := h r object
        let r2 := applyRegisters r effects
        if okFlag then broadcastLoop h pred name rest r2 (object :: acc)
        else ⟨(object :: acc).reverse, r2, false⟩
      else broadcastLoop h pred name rest r acc

/-- `Avm2::broadcast_event` (avm2.rs lines 207-241): a no-op for a
non-whitelisted event type; otherwise snapshot the length of the event's
bucket (`entry(..).or_default().len()`) and iterate indices `0..len`.
`object.is_of_type(on_type)` is modelled by the predicate `pred` (its
possible `Err`, like a dispatch error, would only end the pump early). -/
def broadcast_event (h : DispatchModel) (r : BroadcastList) (event : Event)
    (pred : Nat → Bool) : BroadcastResult :=
  if !(BROADCAST_WHITELIST.any fun x => x == event.event_type) then ⟨[], r, true⟩
  else
    let r1 := ensureBucket r event.event_type
    let el_length := (bucketOf r1 event.event_type).length
    broadcastLoop h pred event.event_type (List.range el_length) r1 []

/-- Invariant I5: every event name present in the broadcast registry is
drawn from the whitelist. -/
def RegistryWhitelisted (r : BroadcastList) : Prop :=
  ∀ p ∈ r, p.1 ∈ BROADCAST_WHITELIST

/-! ## Bootstrap (`load_player_globals`, globals.rs lines 389-776)

The bootstrap orchestration of globals.rs is embedded step by step.
Object allocation (`ScriptObject::bare_object`, `create_proto`,
`ClassObject::from_class`, …) lives in object.rs / class-specific modules
that are not among the supplied sources; allocation is modelled as
drawing a fresh id from a counter.  `Domain::export_definition`
(domain.rs, also absent) is modelled from the spec, section 3: "An export
binds a name to the script that, when initialized, provides the
definition" — the model records the sequence of bindings.  Trait
installation and class-initializer runs are recorded as trace events so
that the ordering claims can be stated. -/

/-- `SystemPrototypes` (globals.rs lines 83-115): one slot per system
builtin's prototype, each holding an object id.  The source field `class`
is spelled `class_` here (`class` is reserved in Lean); `namespace` is
spelled `namespace_`. -/
structure SystemPrototypes where
  object : Nat
  function : Nat
  class_ : Nat
  global : Nat
  string : Nat
  boolean : Nat
  number : Nat
  int : Nat
  uint : Nat
  namespace_ : Nat
  array : Nat
  movieclip : Nat
  framelabel : Nat
  scene : Nat
  application_domain : Nat
  event : Nat
  video : Nat
  xml : Nat
  xml_list : Nat
  display_object : Nat
  shape : Nat
  point : Nat
  textfield : Nat
  textformat : Nat
  graphics : Nat
  loaderinfo : Nat
  bytearray : Nat
  stage : Nat
  sprite : Nat
  simplebutton : Nat
  regexp : Nat
deriving DecidableEq, Repr

/-- `SystemPrototypes::new` (globals.rs lines 125-164): the three
primordial slots are the given prototypes; every other slot is the shared
`empty` object. -/
def SystemPrototypes.new (object function class_ empty : Nat) : SystemPrototypes :=
  { object := object
    function := function
    class_ := class_
    global := empty
    string := empty
    boolean := empty
    number := empty
    int := empty
    uint := empty
    namespace_ := empty
    array := empty
    movieclip := empty
    framelabel := empty
    scene := empty
    application_domain := empty
    event := empty
    video := empty
    xml := empty
    xml_list := empty
    display_object := empty
    shape := empty
    point := empty
    textfield := empty
    textformat := empty
    graphics := empty
    loaderinfo := empty
    bytearray := empty
    stage := empty
    sprite := empty
    simplebutton := empty
    regexp := empty }

/-- `SystemClasses` (globals.rs lines 170-202): one slot per system
builtin's class object. -/
structure SystemClasses where
  object : Nat
  function : Nat
  class_ : Nat
  global : Nat
  string : Nat
  boolean : Nat
  number : Nat
  int : Nat
  uint : Nat
  namespace_ : Nat
  array : Nat
  movieclip : Nat
  framelabel : Nat
  scene : Nat
  application_domain : Nat
  event : Nat
  video : Nat
  xml : Nat
  xml_list : Nat
  display_object : Nat
  shape : Nat
  point : Nat
  textfield : Nat
  textformat : Nat
  graphics : Nat
  loaderinfo : Nat
  bytearray : Nat
  stage : Nat
  sprite : Nat
  simplebutton : Nat
  regexp : Nat
deriving DecidableEq, Repr

/-- `SystemClasses::new` (globals.rs lines 212-251): the three primordial
slots are the given classes; every other slot is the shared `empty`
object. -/
def SystemClasses.new (object function class_ empty : Nat) : SystemClasses :=
  { object := object
    function := function
    class_ := class_
    global := empty
    string := empty
    boolean := empty
    number := empty
    int := empty
    uint := empty
    namespace_ := empty
    array := empty
    movieclip := empty
    framelabel := empty
    scene := empty
    application_domain := empty
    event := empty
    video := empty
    xml := empty
    xml_list := empty
    display_object := empty
    shape := empty
    point := empty
    textfield := empty
    textformat := empty
    graphics := empty
    loaderinfo := empty
    bytearray := empty
    stage := empty
    sprite := empty
    simplebutton := empty
    regexp := empty }

/-- Observable bootstrap steps recorded during `load_player_globals`:
installing a class's class traits, running a class's class initializer,
and publishing the initial SystemPrototypes/SystemClasses tables. -/
inductive BootEvent where
  | installClassTraits (name : String)
  | runClassInit (name : String)
  | publishTables
deriving DecidableEq, Repr

/-- The bootstrap-relevant portion of the `Avm2` interpreter state
(avm2.rs lines 65-90) together with an allocation counter for the
GC heap, the recorded export bindings of the player domain, the recorded
boot trace, and — for stating the claims — copies of the tables as first
published plus the ids of the two bare-object sentinels. -/
structure Avm2State where
  nextId : Nat
  system_prototypes : Option SystemPrototypes
  system_classes : Option SystemClasses
  exports : List (String × Nat)
  boot_trace : List BootEvent
  published_prototypes : Option SystemPrototypes
  published_classes : Option SystemClasses
  proto_sentinel : Option Nat
  class_sentinel : Option Nat
  gs_proto : Option Nat
  domain_memory_initialized : Bool
deriving DecidableEq, Repr

/-- `Avm2::new` (avm2.rs lines 94-107): empty stack, no system tables,
empty broadcast list. -/
def Avm2State.new : Avm2State :=
  { nextId := 0
    system_prototypes := none
    system_classes := none
    exports := []
    boot_trace := []
    published_prototypes := none
    published_classes := none
    proto_sentinel := none
    class_sentinel := none
    gs_proto := none
    domain_memory_initialized := false }

/-- Allocate a fresh object on the managed heap (a new id). -/
def alloc (s : Avm2State) : Nat × Avm2State :=
  (s.nextId, { s with nextId := s.nextId + 1 })

/-- Modelled from the spec (section 3): `Domain::export_definition`
(domain.rs, not among the supplied sources) binds a name to the defining
script; the model keeps the sequence of bindings (later bindings shadow
earlier ones in `lookup_export`). -/
def export_definition (s : Avm2State) (name : String) (script : Nat) : Avm2State :=
  { s with exports := s.exports ++ [(name, script)] }

/-- Look up the last-established binding of a name in the domain. -/
def lookup_export (s : Avm2State) (name : String) : Option Nat :=
  (s.exports.reverse.find? (fun p => p.1 == name)).map (fun p => p.2)

/-- Append a boot event to the recorded trace. -/
def emit (s : Avm2State) (e : BootEvent) : Avm2State :=
  { s with boot_trace := s.boot_trace ++ [e] }

/-- The `class` helper of globals.rs (lines 303-353): realize a class
definition via `ClassObject::from_class` — modelled from the spec,
section 4.5 (class-specific modules are not among the supplied sources):
allocate the prototype, install traits, construct the class object and
run its class initializer — then install it as a const on the global
script and export it.  Returns (class object, prototype). -/
def class_builtin (s : Avm2State) (name : String) (script : Nat) :
    (Nat × Nat) × Avm2State :=
  let (proto, s) := alloc s
  let (class_object, s) := alloc s
  let s := emit s (BootEvent.installClassTraits name)
  let s := emit s (BootEvent.runClassInit name)
  let s := export_definition s name script
  ((class_object, proto), s)

/-- The `dynamic_class` helper of globals.rs (lines 281-297): install an
already-built class object as a const and export it under its name. -/
def dynamic_class (s : Avm2State) (name : String) (script : Nat) : Avm2State :=
  export_definition s name script

/-- The `function` helper of globals.rs (lines 255-275): build a
`FunctionObject` for a native builtin and export it. -/
def function_builtin (s : Avm2State) (name : String) (script : Nat) : Avm2State :=
  let (_as3fn, s) := alloc s
  export_definition s name script

/-- The `constant` helper of globals.rs (lines 356-369): export a
constant binding. -/
def constant_builtin (s : Avm2State) (name : String) (script : Nat) : Avm2State :=
  export_definition s name script

/-- The `avm2_system_class!` macro of globals.rs (lines 371-381): run the
`class` helper, then store the class object and prototype into the named
slot of the published SystemClasses and SystemPrototypes tables. -/
def avm2_system_class (s : Avm2State) (name : String) (script : Nat)
    (setC : SystemClasses → Nat → SystemClasses)
    (setP : SystemPrototypes → Nat → SystemPrototypes) : Avm2State :=
  let ((class_object, proto), s) := class_builtin s name script
  let s := { s with
    system_classes := s.system_classes.map (fun t => setC t class_object) }
  { s with
    system_prototypes := s.system_prototypes.map (fun t => setP t proto) }

/-- `load_player_globals` (globals.rs lines 389-776), step by step in
source order: allocate the early global scope and empty script; build the
primordial Object/Function/Class prototypes and classes; export the three
primordials; publish minimal SystemPrototypes/SystemClasses tables whose
non-primordial slots all hold a freshly allocated bare object; install
the primordials' class traits and run their class initializers; then
realize every remaining builtin class in source order, updating the
corresponding table slots for the `avm2_system_class!` ones. -/
def load_player_globals (s : Avm2State) : Avm2State :=
  let (_gs, s) := alloc s
  let (script, s) := alloc s
  let (object_proto, s) := alloc s
  let (fn_proto, s) := alloc s
  let (object_class, s) := alloc s
  let (function_class, s) := alloc s
  let (class_class, s) := alloc s
  let (class_proto, s) := alloc s
  let s := dynamic_class s "Object" script
  let s := dynamic_class s "Function" script
  let s := dynamic_class s "Class" script
  let (proto_empty, s) := alloc s
  let protoTable := SystemPrototypes.new object_proto fn_proto class_proto proto_empty
  let s := { s with
    system_prototypes := some protoTable
    published_prototypes := some protoTable
    proto_sentinel := some proto_empty }
  let (class_empty, s) := alloc s
  let classTable := SystemClasses.new object_class function_class class_class class_empty
  let s := { s with
    system_classes := some classTable
    published_classes := some classTable
    class_sentinel := some class_empty }
  let s := emit s BootEvent.publishTables
  let s := emit s (BootEvent.installClassTraits "Object")
  let s := emit s (BootEvent.installClassTraits "Function")
  let s := emit s (BootEvent.installClassTraits "Class")
  let s := emit s (BootEvent.runClassInit "Object")
  let s := emit s (BootEvent.runClassInit "Function")
  let s := emit s (BootEvent.runClassInit "Class")
  let s := avm2_system_class s "global" script
    (fun t v => { t with global := v }) (fun t v => { t with global := v })
  let s := avm2_system_class s "String" script
    (fun t v => { t with string := v }) (fun t v => { t with string := v })
  let s := avm2_system_class s "Boolean" script
    (fun t v => { t with boolean := v }) (fun t v => { t with boolean := v })
  let s := avm2_system_class s "Number" script
    (fun t v => { t with number := v }) (fun t v => { t with number := v })
  let s := avm2_system_class s "int" script
    (fun t v => { t with int := v }) (fun t v => { t with int := v })
  let s := avm2_system_class s "uint" script
    (fun t v => { t with uint := v }) (fun t v => { t with uint := v })
  let s := avm2_system_class s "Namespace" script
    (fun t v => { t with namespace_ := v }) (fun t v => { t with namespace_ := v })
  let s := avm2_system_class s "Array" script
    (fun t v => { t with array := v }) (fun t v => { t with array := v })
  let s := { s with gs_proto := s.system_prototypes.map (fun t => t.global) }
  let s := function_builtin s "trace" script
  let s := function_builtin s "isFinite" script
  let s := function_builtin s "isNaN" script
  let s := constant_builtin s "undefined" script
  let s := constant_builtin s "null" script
  let s := constant_builtin s "NaN" script
  let s := constant_builtin s "Infinity" script
  let s := (class_builtin s "Math" script).2
  let s := avm2_system_class s "RegExp" script
    (fun t v => { t with regexp := v }) (fun t v => { t with regexp := v })
  let s := avm2_system_class s "XML" script
    (fun t v => { t with xml := v }) (fun t v => { t with xml := v })
  let s := avm2_system_class s "XMLList" script
    (fun t v => { t with xml_list := v }) (fun t v => { t with xml_list := v })
  let s := avm2_system_class s "ApplicationDomain" script
    (fun t v => { t with application_domain := v })
    (fun t v => { t with application_domain := v })
  let s := (class_builtin s "Capabilities" script).2
  let s := (class_builtin s "System" script).2
  let s := avm2_system_class s "Event" script
    (fun t v => { t with event := v }) (fun t v => { t with event := v })
  let s := (class_builtin s "IEventDispatcher" script).2
  let s := (class_builtin s "EventDispatcher" script).2
  let s := avm2_system_class s "ByteArray" script
    (fun t v => { t with bytearray := v }) (fun t v => { t with bytearray := v })
  let s := { s with domain_memory_initialized := true }
  let s := (class_builtin s "Endian" script).2
  let s := (class_builtin s "CompressionAlgorithm" script).2
  let s := function_builtin s "getTimer" script
  let s := avm2_system_class s "DisplayObject" script
    (fun t v => { t with display_object := v })
    (fun t v => { t with display_object := v })
  let s := avm2_system_class s "Shape" script
    (fun t v => { t with shape := v }) (fun t v => { t with shape := v })
  let s := (class_builtin s "InteractiveObject" script).2
  let s := avm2_system_class s "SimpleButton" script
    (fun t v => { t with simplebutton := v }) (fun t v => { t with simplebutton := v })
  let s := (class_builtin s "DisplayObjectContainer" script).2
  let s := avm2_system_class s "Sprite" script
    (fun t v => { t with sprite := v }) (fun t v => { t with sprite := v })
  let s := avm2_system_class s "MovieClip" script
    (fun t v => { t with movieclip := v }) (fun t v => { t with movieclip := v })
  let s := avm2_system_class s "FrameLabel" script
    (fun t v => { t with framelabel := v }) (fun t v => { t with framelabel := v })
  let s := avm2_system_class s "Scene" script
    (fun t v => { t with scene := v }) (fun t v => { t with scene := v })
  let s := avm2_system_class s "Graphics" script
    (fun t v => { t with graphics := v }) (fun t v => { t with graphics := v })
  let s := (class_builtin s "JointStyle" script).2
  let s := (class_builtin s "LineScaleMode" script).2
  let s := (class_builtin s "CapsStyle" script).2
  let s := avm2_system_class s "LoaderInfo" script
    (fun t v => { t with loaderinfo := v }) (fun t v => { t with loaderinfo := v })
  let s := (class_builtin s "ActionScriptVersion" script).2
  let s := (class_builtin s "SWFVersion" script).2
  let s := avm2_system_class s "Stage" script
    (fun t v => { t with stage := v }) (fun t v => { t with stage := v })
  let s := (class_builtin s "StageScaleMode" script).2
  let s := (class_builtin s "StageAlign" script).2
  let s := (class_builtin s "StageDisplayState" script).2
  let s := (class_builtin s "StageQuality" script).2
  let s := avm2_system_class s "Point" script
    (fun t v => { t with point := v }) (fun t v => { t with point := v })
  let s := avm2_system_class s "Video" script
    (fun t v => { t with video := v }) (fun t v => { t with video := v })
  let s := avm2_system_class s "TextField" script
    (fun t v => { t with textfield := v }) (fun t v => { t with textfield := v })
  let s := avm2_system_class s "TextFormat" script
    (fun t v => { t with textformat := v }) (fun t v => { t with textformat := v })
  let s := (class_builtin s "TextFieldAutoSize" script).2
  let s := (class_builtin s "TextFormatAlign" script).2
  (class_builtin s "TextFieldType" script).2

/-- The VM state after a first bootstrap from a fresh VM. -/
def boot1 : Avm2State := load_player_globals Avm2State.new

/-- The VM state after calling `load_player_globals` a second time. -/
def boot2 : Avm2State := load_player_globals boot1

/-- The id stored in the object-prototype slot of the system prototype
table (0 if the table is unpublished). -/
def protoObjectId (s : Avm2State) : Nat :=
  match s.system_prototypes with
  | some t => t.object
  | none => 0

/-- The three primordial class names of the bootstrap (spec I3). -/
def primordialNames : List String := ["Object", "Function", "Class"]

/-- Whether a boot event is the class-initializer run of a non-primordial
class. -/
def isNonPrimordialInit : BootEvent → Bool
  | BootEvent.runClassInit n => !(primordialNames.any fun x => x == n)
  | _ => false

/-- Whether a trace fragment contains the full realization — class traits
installed and class initializer run — of all three primordials. -/
def primordialsRealized (t : List BootEvent) : Bool :=
  primordialNames.all fun n =>
    (t.any fun e => e == BootEvent.installClassTraits n) &&
      (t.any fun e => e == BootEvent.runClassInit n)

/-- The non-primordial slots of a prototype table, in declaration order. -/
def nonPrimordialProtoSlots (t : SystemPrototypes) : List Nat :=
  [t.global, t.string, t.boolean, t.number, t.int, t.uint, t.namespace_,
   t.array, t.movieclip, t.framelabel, t.scene, t.application_domain,
   t.event, t.video, t.xml, t.xml_list, t.display_object, t.shape,
   t.point, t.textfield, t.textformat, t.graphics, t.loaderinfo,
   t.bytearray, t.stage, t.sprite, t.simplebutton, t.regexp]

/-- The non-primordial slots of a class table, in declaration order. -/
def nonPrimordialClassSlots (t : SystemClasses) : List Nat :=
  [t.global, t.string, t.boolean, t.number, t.int, t.uint, t.namespace_,
   t.array, t.movieclip, t.framelabel, t.scene, t.application_domain,
   t.event, t.video, t.xml, t.xml_list, t.display_object, t.shape,
   t.point, t.textfield, t.textformat, t.graphics, t.loaderinfo,
   t.bytearray, t.stage, t.sprite, t.simplebutton, t.regexp]

/-- Bounded decidable check that every non-primordial class-initializer
run in a trace is preceded by the full realization of the three
primordials. -/
def primordialsFirstCheck (t : List BootEvent) : Bool :=
  (List.range t.length).all fun k =>
    match t[k]? with
    | some e => !(isNonPrimordialInit e) || primordialsRealized (t.take k)
    | none => true

/-- Decidable form of the sentinel part of claim C7 over a bootstrapped
state: at publish time every non-primordial prototype slot is the
bare-object prototype sentinel and every non-primordial class slot is the
bare-object class sentinel; in the final tables every non-primordial slot
has been replaced (no longer a sentinel). -/
def bootstrapSentinelsOk (s : Avm2State) : Bool :=
  (match s.published_prototypes, s.proto_sentinel with
    | some t, some sp => (nonPrimordialProtoSlots t).all fun v => v == sp
    | _, _ => false) &&
    (match s.published_classes, s.class_sentinel with
      | some t, some sc => (nonPrimordialClassSlots t).all fun v => v == sc
      | _, _ => false) &&
    (match s.system_prototypes, s.proto_sentinel with
      | some t, some sp => (nonPrimordialProtoSlots t).all fun v => !(v == sp)
      | _, _ => false) &&
    (match s.system_classes, s.class_sentinel with
      | some t, some sc => (nonPrimordialClassSlots t).all fun v => !(v == sc)
      | _, _ => false)

-- THEOREM-HELPERS

/-- Soundness of the bounded check: if `primordialsFirstCheck` holds of a
trace, then every non-primordial class-initializer run in it is preceded
by the full realization of the three primordials. -/
theorem primordialsFirstCheck_sound (t : List BootEvent)
    (h : primordialsFirstCheck t = true) :
    ∀ k e, t[k]? = some e → isNonPrimordialInit e = true →
      primordialsRealized (t.take k) = true := by
  intro k e hk he
  have hlt : k < t.length := (List.getElem?_eq_some.mp hk).1
  have hall := List.all_eq_true.mp h k (List.mem_range.mpr hlt)
  simp only [hk] at hall
  rw [he] at hall
  simpa using hall

/-- Boolean `any (== a)` agrees with list membership. -/
theorem any_beq_iff_mem {α : Type} [BEq α] [LawfulBEq α] (l : List α) (a : α) :
    (l.any fun x => x == a) = true ↔ a ∈ l := by
  simp [List.any_eq_true]

/-- Looking up a name in a concatenation falls through to the second list
when the first does not bind it. -/
theorem lookupBucket_append (r s : BroadcastList) (n : String) :
    lookupBucket (r ++ s) n =
      match lookupBucket r n with
      | some v => some v
      | none => lookupBucket s n := by
  induction r with
  | nil => rfl
  | cons p rest ih =>
    obtain ⟨k, v⟩ := p
    by_cases h : k = n <;> simp [lookupBucket, h, ih]

/-- `setBucket` binds the written name to the new bucket. -/
theorem lookupBucket_setBucket_self (r : BroadcastList) (n : String)
    (b : List Nat) : lookupBucket (setBucket r n b) n = some b := by
  induction r with
  | nil => simp [setBucket, lookupBucket]
  | cons p rest ih =>
    obtain ⟨k, v⟩ := p
    by_cases h : k = n <;> simp [setBucket, lookupBucket, h, ih]

/-- `setBucket` leaves every other name's binding unchanged. -/
theorem lookupBucket_setBucket_other (r : BroadcastList) (n n' : String)
    (b : List Nat) (h : n' ≠ n) :
    lookupBucket (setBucket r n b) n' = lookupBucket r n' := by
  have hne : ¬ (n = n') := fun hh => h hh.symm
  induction r with
  | nil => simp [setBucket, lookupBucket, hne]
  | cons p rest ih =>
    obtain ⟨k, v⟩ := p
    by_cases hk : k = n
    · subst hk
      simp [setBucket, lookupBucket, hne]
    · simp [setBucket, lookupBucket, hk, ih]

/-- After `ensureBucket`, the name is bound, to its previous bucket (or
to the empty bucket if it was absent). -/
theorem lookupBucket_ensureBucket_self (r : BroadcastList) (n : String) :
    lookupBucket (ensureBucket r n) n = some (bucketOf r n) := by
  unfold ensureBucket
  cases h : lookupBucket r n with
  | some v => simp [bucketOf, h]
  | none =>
    rw [lookupBucket_append, h]
    simp [bucketOf, h, lookupBucket]

/-- `ensureBucket` leaves other names' bindings unchanged. -/
theorem lookupBucket_ensureBucket_other (r : BroadcastList) (n n' : String)
    (h : n' ≠ n) :
    lookupBucket (ensureBucket r n) n' = lookupBucket r n' := by
  have hne : ¬ (n = n') := fun hh => h hh.symm
  unfold ensureBucket
  cases hl : lookupBucket r n with
  | some v => rfl
  | none =>
    rw [lookupBucket_append]
    cases hl' : lookupBucket r n' with
    | some v => simp
    | none => simp [lookupBucket, hne]

/-- `ensureBucket` does not change any name's effective bucket. -/
theorem bucketOf_ensureBucket (r : BroadcastList) (n n' : String) :
    bucketOf (ensureBucket r n) n' = bucketOf r n' := by
  by_cases h : n' = n
  · subst h
    simp only [bucketOf, lookupBucket_ensureBucket_self, Option.getD_some]
  · simp only [bucketOf, lookupBucket_ensureBucket_other r n n' h]

/-- `ensureBucket` is the identity when the name is already bound. -/
theorem ensureBucket_of_lookup_some (r : BroadcastList) (n : String)
    (v : List Nat) (h : lookupBucket r n = some v) : ensureBucket r n = r := by
  unfold ensureBucket
  rw [h]

/-- Registration only ever appends to a bucket: for every name, the
bucket after `register_broadcast_listener` is the old bucket plus a
(possibly empty) suffix. -/
theorem register_extends (r : BroadcastList) (o : Nat) (e n : String) :
    ∃ t, bucketOf (register_broadcast_listener r o e) n = bucketOf r n ++ t := by
  unfold register_broadcast_listener
  by_cases hwl : (BROADCAST_WHITELIST.any fun x => x == e) = true
  · simp only [hwl, Bool.not_true, Bool.false_eq_true, if_false]
    by_cases hmem : (bucketOf (ensureBucket r e) e).any (fun x => x == o) = true
    · simp only [hmem, if_true]
      exact ⟨[], by rw [List.append_nil, bucketOf_ensureBucket]⟩
    · simp only [hmem, Bool.false_eq_true, if_false]
      by_cases hn : n = e
      · subst hn
        refine ⟨[o], ?_⟩
        rw [bucketOf, lookupBucket_setBucket_self, Option.getD_some,
          bucketOf_ensureBucket]
      · refine ⟨[], ?_⟩
        rw [List.append_nil, bucketOf,
          lookupBucket_setBucket_other _ _ _ _ hn, ← bucketOf,
          bucketOf_ensureBucket]
  · simp only [Bool.not_eq_true] at hwl
    simp only [hwl, Bool.not_false, if_true]
    exact ⟨[], (List.append_nil _).symm⟩

/-- A sequence of registrations only ever appends to a bucket. -/
theorem applyRegisters_extends (effects : List (Nat × String))
    (r : BroadcastList) (n : String) :
    ∃ t, bucketOf (applyRegisters r effects) n = bucketOf r n ++ t := by
  induction effects generalizing r with
  | nil => exact ⟨[], (List.append_nil _).symm⟩
  | cons eff rest ih =>
    obtain ⟨t1, h1⟩ := register_extends r eff.1 eff.2 n
    obtain ⟨t2, h2⟩ := ih (register_broadcast_listener r eff.1 eff.2)
    exact ⟨t1 ++ t2, by
      show bucketOf (applyRegisters (register_broadcast_listener r eff.1 eff.2) rest) n = _
      rw [h2, h1, List.append_assoc]⟩

/-- Soundness of the broadcast pump loop: whenever the registry's bucket
for the pumped event extends a snapshot `b₀` and every pending index is
below `b₀.length`, every object the loop dispatches to satisfies the
is-a predicate and was already in the snapshot. -/
theorem broadcastLoop_sound (h : DispatchModel) (pred : Nat → Bool)
    (name : String) (b₀ : List Nat) :
    ∀ (idxs : List Nat) (r : BroadcastList) (acc : List Nat),
      (∀ i ∈ idxs, i < b₀.length) →
      (∃ t, bucketOf r name = b₀ ++ t) →
      (∀ o ∈ acc, pred o = true ∧ o ∈ b₀) →
      ∀ o ∈ (broadcastLoop h pred name idxs r acc).dispatched,
        pred o = true ∧ o ∈ b₀ := by
  intro idxs
  induction idxs with
  | nil =>
    intro r acc _ _ hacc o ho
    simp only [broadcastLoop, List.mem_reverse] at ho
    exact hacc o ho
  | cons i rest ih =>
    intro r acc hidx hext hacc o ho
    obtain ⟨t, ht⟩ := hext
    have hi : i < b₀.length := hidx i (List.mem_cons_self i rest)
    have hrest : ∀ j ∈ rest, j < b₀.length := fun j hj =>
      hidx j (List.mem_cons_of_mem i hj)
    have hread : (bucketOf r name)[i]? = b₀[i]? := by
      rw [ht]; exact List.getElem?_append_left hi
    cases hmatch : (bucketOf r name)[i]? with
    | none =>
      simp only [broadcastLoop, hmatch] at ho
      exact ih r acc hrest ⟨t, ht⟩ hacc o ho
    | some object =>
      have hobj : object ∈ b₀ := by
        rw [hmatch] at hread
        exact List.getElem?_mem hread.symm
      by_cases hpred : pred object = true
      · rcases hh : h r object with ⟨effects, okFlag⟩
        obtain ⟨t2, ht2⟩ := applyRegisters_extends effects r name
        have hext2 : ∃ t', bucketOf (applyRegisters r effects) name = b₀ ++ t' :=
          ⟨t ++ t2, by rw [ht2, ht, List.append_assoc]⟩
        have hacc2 : ∀ o' ∈ object :: acc, pred o' = true ∧ o' ∈ b₀ := by
          intro o' ho'
          rcases List.mem_cons.mp ho' with h' | h'
          · subst h'; exact ⟨hpred, hobj⟩
          · exact hacc o' h'
        cases okFlag with
        | true =>
          simp only [broadcastLoop, hmatch, hpred, if_true, hh] at ho
          exact ih (applyRegisters r effects) (object :: acc) hrest hext2 hacc2 o ho
        | false =>
          simp only [broadcastLoop, hmatch, hpred, if_true, hh,
            Bool.false_eq_true, if_false, List.mem_reverse] at ho
          exact hacc2 o ho
      · simp only [Bool.not_eq_true] at hpred
        simp only [broadcastLoop, hmatch, hpred, Bool.false_eq_true, if_false] at ho
        exact ih r acc hrest ⟨t, ht⟩ hacc o ho

/-- Every pair stored after `setBucket` either carries the written name
or was already stored. -/
theorem mem_setBucket (r : BroadcastList) (n : String) (b : List Nat) :
    ∀ p ∈ setBucket r n b, p.1 = n ∨ p ∈ r := by
  induction r with
  | nil =>
    intro p hp
    simp only [setBucket, List.mem_singleton] at hp
    subst hp
    exact Or.inl rfl
  | cons q rest ih =>
    obtain ⟨k, v⟩ := q
    intro p hp
    by_cases hk : k = n
    · simp only [setBucket, hk, if_true, List.mem_cons] at hp
      rcases hp with h | h
      · subst h; exact Or.inl rfl
      · exact Or.inr (List.mem_cons_of_mem _ h)
    · simp only [setBucket, hk, if_false, List.mem_cons] at hp
      rcases hp with h | h
      · subst h
        exact Or.inr (List.mem_cons_self _ _)
      · rcases ih p h with h' | h'
        · exact Or.inl h'
        · exact Or.inr (List.mem_cons_of_mem _ h')

/-- Every pair stored after `ensureBucket` either carries the ensured
name or was already stored. -/
theorem mem_ensureBucket (r : BroadcastList) (n : String) :
    ∀ p ∈ ensureBucket r n, p.1 = n ∨ p ∈ r := by
  unfold ensureBucket
  cases hl : lookupBucket r n with
  | some v => exact fun p hp => Or.inr hp
  | none =>
    intro p hp
    rcases List.mem_append.mp hp with h | h
    · exact Or.inr h
    · simp only [List.mem_singleton] at h
      subst h; exact Or.inl rfl

/-- `register_broadcast_listener` preserves invariant I5. -/
theorem register_preserves_whitelisted (r : BroadcastList) (o : Nat)
    (e : String) (hr : RegistryWhitelisted r) :
    RegistryWhitelisted (register_broadcast_listener r o e) := by
  unfold register_broadcast_listener
  by_cases hwl : (BROADCAST_WHITELIST.any fun x => x == e) = true
  · have he : e ∈ BROADCAST_WHITELIST := by
      rw [← any_beq_iff_mem]; exact hwl
    simp only [hwl, Bool.not_true, Bool.false_eq_true, if_false]
    by_cases hmem : (bucketOf (ensureBucket r e) e).any (fun x => x == o) = true
    · simp only [hmem, if_true]
      intro p hp
      rcases mem_ensureBucket r e p hp with h | h
      · rw [h]; exact he
      · exact hr p h
    · simp only [hmem, if_false]
      intro p hp
      rcases mem_setBucket _ e _ p hp with h | h
      · rw [h]; exact he
      · rcases mem_ensureBucket r e p h with h' | h'
        · rw [h']; exact he
        · exact hr p h'
  · simp only [Bool.not_eq_true] at hwl
    simp only [hwl, Bool.not_false, if_true]
    exact hr

/-- A sequence of registrations preserves invariant I5. -/
theorem applyRegisters_preserves_whitelisted (effects : List (Nat × String))
    (r : BroadcastList) (hr : RegistryWhitelisted r) :
    RegistryWhitelisted (applyRegisters r effects) := by
  induction effects generalizing r with
  | nil => exact hr
  | cons eff rest ih =>
    exact ih (register_broadcast_listener r eff.1 eff.2)
      (register_preserves_whitelisted r eff.1 eff.2 hr)

/-- The broadcast pump loop preserves invariant I5. -/
theorem broadcastLoop_preserves_whitelisted (h : DispatchModel)
    (pred : Nat → Bool) (name : String) :
    ∀ (idxs : List Nat) (r : BroadcastList) (acc : List Nat),
      RegistryWhitelisted r →
      RegistryWhitelisted (broadcastLoop h pred name idxs r acc).registry := by
  intro idxs
  induction idxs with
  | nil => intro r acc hr; exact hr
  | cons i rest ih =>
    intro r acc hr
    cases hmatch : (bucketOf r name)[i]? with
    | none =>
      simp only [broadcastLoop, hmatch]
      exact ih r acc hr
    | some object =>
      by_cases hpred : pred object = true
      · rcases hh : h r object with ⟨effects, okFlag⟩
        have hr2 := applyRegisters_preserves_whitelisted effects r hr
        cases okFlag with
        | true =>
          simp only [broadcastLoop, hmatch, hpred, if_true, hh]
          exact ih (applyRegisters r effects) (object :: acc) hr2
        | false =>
          simp only [broadcastLoop, hmatch, hpred, if_true, hh,
            Bool.false_eq_true, if_false]
          exact hr2
      · simp only [Bool.not_eq_true] at hpred
        simp only [broadcastLoop, hmatch, hpred, Bool.false_eq_true, if_false]
        exact ih r acc hr

/-- The registration events of the load loop are exactly its index
sequence, in order. -/
theorem loadScriptsLoop_regs (lazy : Bool) (l : List Nat) :
    (loadScriptsLoop lazy l).filterMap regIndex = l := by
  induction l with
  | nil => rfl
  | cons i rest ih =>
    cases lazy <;> simp [loadScriptsLoop, regIndex, ih]

/-- The initializer-trigger events of the load loop: none when lazy, the
index sequence itself when eager. -/
theorem loadScriptsLoop_inits (lazy : Bool) (l : List Nat) :
    (loadScriptsLoop lazy l).filterMap initIndex = if lazy then [] else l := by
  induction l with
  | nil => cases lazy <;> rfl
  | cons i rest ih =>
    cases lazy <;> simp_all [loadScriptsLoop, initIndex, regIndex]

/-- In an eager load, each registration event is immediately followed by
the same script's initializer trigger. -/
theorem loadScriptsLoop_eager_adjacent (l : List Nat) (k i : Nat)
    (h : (loadScriptsLoop false l)[k]? = some (AbcScriptEvent.registerScript i)) :
    (loadScriptsLoop false l)[k + 1]? = some (AbcScriptEvent.initScript i) := by
  induction l generalizing k with
  | nil => simp [loadScriptsLoop] at h
  | cons j rest ih =>
    match k with
    | 0 =>
      simp [loadScriptsLoop] at h
      simp [loadScriptsLoop, h]
    | 1 =>
      simp [loadScriptsLoop] at h
    | (k' + 2) =>
      simp only [loadScriptsLoop, Bool.false_eq_true, if_false,
        List.cons_append, List.nil_append, List.getElem?_cons_succ] at h ⊢
      exact ih k' h

-- THEOREMS

/-- C1: for every event and target object (with its display-list
ancestry), `dispatch_event` returns `true` if and only if the event's
default action was not cancelled during dispatch. -/
theorem dispatch_event_true_iff_not_cancelled
    (ancestry : List (List Listener)) (target : List Listener) (event : Event) :
    (dispatch_event ancestry target event).1 = true ↔
      (dispatch_event ancestry target event).2.cancelled = false := by
  simp [dispatch_event]

/-- C8: popping the operand stack when it is empty does not fail: for
every VM state with an empty stack, `pop` returns `Value.undefined` and
appends the stack-underflow warning to the diagnostic log. -/
theorem pop_empty_returns_undefined_and_warns (s : Avm2Stack)
    (h : s.stack = []) :
    pop s = (Value.undefined,
      { s with warnings := s.warnings ++ ["Avm1::pop: Stack underflow"] }) := by
  unfold pop
  rw [h]

/-- Witness for C8 at a concrete empty-stack state. -/
theorem pop_empty_returns_undefined_and_warns_witness :
    pop ⟨[], ["w0"]⟩ = (Value.undefined,
      { Avm2Stack.mk [] ["w0"] with
          warnings := ["w0"] ++ ["Avm1::pop: Stack underflow"] }) :=
  pop_empty_returns_undefined_and_warns ⟨[], ["w0"]⟩ rfl

/-- C9: for every value `v` and every stack state, `pop` performed
immediately after `push v` returns exactly `v` and restores the state —
stack contents, length and warning log — to what it was before the push. -/
theorem push_pop_roundtrip (s : Avm2Stack) (v : Value) :
    pop (push s v) = (v, s) := rfl

/-- C10: the `flash.system.Capabilities` instance constructor returns the
error "The Capabilities class cannot be constructed." for every
activation, receiver and argument list, while its class constructor always
succeeds returning `undefined`. -/
theorem capabilities_instance_init_always_errors {α : Type} (activation : α)
    (this : Option Nat) (args : List Value) :
    capabilities_instance_init activation this args =
        Except.error "The Capabilities class cannot be constructed." ∧
      capabilities_class_init activation this args = Except.ok Value.undefined :=
  ⟨rfl, rfl⟩

set_option maxRecDepth 10000

/-- C2 counterexample: `load_player_globals` is not idempotent — calling
it a second time on the same VM does not leave the VM state (domain
exports, system classes, system prototypes) identical to the state after
the first call. -/
theorem load_player_globals_not_idempotent_cex :
    ¬(boot2.system_prototypes = boot1.system_prototypes ∧
        boot2.system_classes = boot1.system_classes ∧
        boot2.exports = boot1.exports) := by decide

/-- C2 (amended): a second call to `load_player_globals` re-runs the
whole bootstrap, replacing the system prototype and class tables with
tables of freshly allocated objects (every id at least the first call's
allocation watermark), so the VM state after the second call differs from
the state after the first; the source documents that the function "should
be called only once". -/
theorem load_player_globals_second_call_reallocates :
    boot2.system_prototypes ≠ boot1.system_prototypes ∧
      boot2.system_classes ≠ boot1.system_classes ∧
      protoObjectId boot2 ≥ boot1.nextId := by decide

/-- C7: during bootstrap, the three primordial classes Object, Function
and Class are fully realized (class traits installed, class initializers
run) before any other class's initializer runs; at publish time every
non-primordial slot of the SystemPrototypes/SystemClasses tables holds
the respective bare-object sentinel, and in the final tables every
non-primordial slot has been replaced by the realized prototype or
class. -/
theorem bootstrap_primordials_first_and_sentinels :
    (∀ k e, boot1.boot_trace[k]? = some e → isNonPrimordialInit e = true →
        primordialsRealized (boot1.boot_trace.take k) = true) ∧
      bootstrapSentinelsOk boot1 = true :=
  ⟨primordialsFirstCheck_sound boot1.boot_trace (by decide), by decide⟩

/-- Witness for C7: at index 8 of the boot trace sits the first
non-primordial class-initializer run (the `global` class), and the trace
up to it realizes all three primordials. -/
theorem bootstrap_primordials_first_and_sentinels_witness :
    primordialsRealized (boot1.boot_trace.take 8) = true :=
  bootstrap_primordials_first_and_sentinels.1 8 (BootEvent.runClassInit "global")
    (by decide) (by decide)

/-- C3: for every event name `e` not in the whitelist, both
`register_broadcast_listener` with name `e` and `broadcast_event` with an
event of type `e` leave the registry unchanged and dispatch nothing; and
invariant I5 — the broadcast registry only contains whitelisted event
names — is preserved by both operations (for arbitrary names). -/
theorem broadcast_whitelist_noops_and_invariant
    (r : BroadcastList) (o : Nat) (e : String) (h : DispatchModel)
    (event : Event) (pred : Nat → Bool) :
    ((BROADCAST_WHITELIST.any fun x => x == e) = false →
        register_broadcast_listener r o e = r) ∧
      ((BROADCAST_WHITELIST.any fun x => x == event.event_type) = false →
        broadcast_event h r event pred = ⟨[], r, true⟩) ∧
      (RegistryWhitelisted r →
        RegistryWhitelisted (register_broadcast_listener r o e) ∧
          RegistryWhitelisted (broadcast_event h r event pred).registry) := by
  refine ⟨fun hwl => ?_, fun hwl => ?_,
    fun hr => ⟨register_preserves_whitelisted r o e hr, ?_⟩⟩
  · simp [register_broadcast_listener, hwl]
  · simp [broadcast_event, hwl]
  · unfold broadcast_event
    by_cases hwl : (BROADCAST_WHITELIST.any fun x => x == event.event_type) = true
    · simp only [hwl, Bool.not_true, Bool.false_eq_true, if_false]
      apply broadcastLoop_preserves_whitelisted
      intro p hp
      rcases mem_ensureBucket r event.event_type p hp with h' | h'
      · rw [h']
        exact (any_beq_iff_mem _ _).mp hwl
      · exact hr p h'
    · simp only [Bool.not_eq_true] at hwl
      simp only [hwl, Bool.not_false, if_true]
      exact hr

/-- Witness for C3: registering and broadcasting the non-whitelisted name
`notAnEvent` are both no-ops on the empty registry. -/
theorem broadcast_whitelist_noops_and_invariant_witness :
    register_broadcast_listener [] 1 "notAnEvent" = [] ∧
      broadcast_event (fun _ _ => ([], true)) [] ⟨"notAnEvent"⟩ (fun _ => true) =
        ⟨[], [], true⟩ :=
  ⟨(broadcast_whitelist_noops_and_invariant [] 1 "notAnEvent"
      (fun _ _ => ([], true)) ⟨"notAnEvent"⟩ (fun _ => true)).1 (by decide),
    (broadcast_whitelist_noops_and_invariant [] 1 "notAnEvent"
      (fun _ _ => ([], true)) ⟨"notAnEvent"⟩ (fun _ => true)).2.1 (by decide)⟩

/-- C4: for every object `o` and whitelisted event name `e` (in a registry
whose bucket for `e` holds at most one entry for `o`, as every registry
reachable through `register_broadcast_listener` does), registering `o`
twice leaves exactly one entry for `o` in `e`'s list, and the second call
changes nothing. -/
theorem register_broadcast_listener_dedup (r : BroadcastList) (o : Nat)
    (e : String)
    (hwl : (BROADCAST_WHITELIST.any fun x => x == e) = true)
    (hcount : (bucketOf r e).count o ≤ 1) :
    (bucketOf (register_broadcast_listener r o e) e).count o = 1 ∧
      register_broadcast_listener (register_broadcast_listener r o e) o e =
        register_broadcast_listener r o e := by
  have hens : bucketOf (ensureBucket r e) e = bucketOf r e :=
    bucketOf_ensureBucket r e e
  have heq1 : ensureBucket (ensureBucket r e) e = ensureBucket r e :=
    ensureBucket_of_lookup_some _ _ _ (lookupBucket_ensureBucket_self r e)
  by_cases hmem : ((bucketOf (ensureBucket r e) e).any fun x => x == o) = true
  · have hin : o ∈ bucketOf r e := by
      rw [← hens]
      exact (any_beq_iff_mem _ _).mp hmem
    have hresult : register_broadcast_listener r o e = ensureBucket r e := by
      simp only [register_broadcast_listener, hwl, Bool.not_true,
        Bool.false_eq_true, if_false, hmem, if_true]
    constructor
    · rw [hresult, hens]
      exact Nat.le_antisymm hcount (List.count_pos_iff.mpr hin)
    · rw [hresult]
      simp only [register_broadcast_listener, hwl, Bool.not_true,
        Bool.false_eq_true, if_false, heq1, hmem, if_true]
  · have hnotin : o ∉ bucketOf r e := by
      rw [← hens]
      intro hin
      exact hmem ((any_beq_iff_mem _ _).mpr hin)
    have hresult : register_broadcast_listener r o e =
        setBucket (ensureBucket r e) e (bucketOf (ensureBucket r e) e ++ [o]) := by
      simp only [register_broadcast_listener, hwl, Bool.not_true,
        Bool.false_eq_true, if_false, hmem, if_false]
    have hb2 : bucketOf (register_broadcast_listener r o e) e =
        bucketOf r e ++ [o] := by
      rw [hresult]
      simp only [bucketOf, lookupBucket_setBucket_self, Option.getD_some]
      rw [← bucketOf, hens]
      rfl
    have hlook2 : lookupBucket (register_broadcast_listener r o e) e =
        some (bucketOf (ensureBucket r e) e ++ [o]) := by
      rw [hresult]
      exact lookupBucket_setBucket_self _ _ _
    have hmem2 : ((bucketOf (register_broadcast_listener r o e) e).any
        fun x => x == o) = true := by
      rw [hb2]
      exact (any_beq_iff_mem _ _).mpr (List.mem_append_right _ (List.mem_singleton.mpr rfl))
    constructor
    · rw [hb2, List.count_append, List.count_eq_zero.mpr hnotin]
      simp
    · have heq2 : ensureBucket (register_broadcast_listener r o e) e =
          register_broadcast_listener r o e :=
        ensureBucket_of_lookup_some _ _ _ hlook2
      set r2 := register_broadcast_listener r o e with hr2
      rw [register_broadcast_listener]
      simp only [hwl, Bool.not_true, Bool.false_eq_true, if_false, heq2,
        hmem2, if_true]

/-- Witness for C4 at the whitelisted name `exitFrame` and the empty
registry. -/
theorem register_broadcast_listener_dedup_witness :
    (bucketOf (register_broadcast_listener [] 3 "exitFrame") "exitFrame").count 3 = 1 ∧
      register_broadcast_listener (register_broadcast_listener [] 3 "exitFrame") 3 "exitFrame" =
        register_broadcast_listener [] 3 "exitFrame" :=
  register_broadcast_listener_dedup [] 3 "exitFrame" (by decide) (by decide)

/-- C5: `broadcast_event` snapshots the length of the event's listener
list on entry and iterates by index up to that length, so every object it
dispatches to satisfies the is-a check and was already present in the
event's listener list at entry — a listener registered during the pump (by
a dispatched handler) is never dispatched to within that same pump. -/
theorem broadcast_event_snapshot_isolation (h : DispatchModel)
    (r : BroadcastList) (event : Event) (pred : Nat → Bool) :
    ∀ o ∈ (broadcast_event h r event pred).dispatched,
      pred o = true ∧ o ∈ bucketOf r event.event_type := by
  unfold broadcast_event
  by_cases hwl : (BROADCAST_WHITELIST.any fun x => x == event.event_type) = true
  · simp only [hwl, Bool.not_true, Bool.false_eq_true, if_false]
    intro o ho
    have hb := bucketOf_ensureBucket r event.event_type event.event_type
    have hsound := broadcastLoop_sound h pred event.event_type
      (bucketOf (ensureBucket r event.event_type) event.event_type)
      (List.range (bucketOf (ensureBucket r event.event_type) event.event_type).length)
      (ensureBucket r event.event_type) []
      (fun i hi => List.mem_range.mp hi)
      ⟨[], (List.append_nil _).symm⟩
      (fun o' ho' => absurd ho' (List.not_mem_nil o'))
      o ho
    rw [hb] at hsound
    exact hsound
  · simp only [Bool.not_eq_true] at hwl
    simp only [hwl, Bool.not_false, if_true]
    intro o ho
    exact absurd ho (List.not_mem_nil o)

/-- Witness for C5: a pump over the one-listener registry for
`enterFrame`, whose handler registers a new listener (42) mid-pump; the
dispatched object 5 was in the entry list. -/
theorem broadcast_event_snapshot_isolation_witness :
    (fun _ => true : Nat → Bool) 5 = true ∧
      5 ∈ bucketOf [("enterFrame", [5])] "enterFrame" :=
  broadcast_event_snapshot_isolation (fun _ _ => ([(42, "enterFrame")], true))
    [("enterFrame", [5])] ⟨"enterFrame"⟩ (fun _ => true) 5 (by decide)

/-- C6: `load_abc` iterates the ABC file's scripts in reverse order of
declaration (last declared first), registering each in the translation
unit; when `lazy_init` is false it additionally triggers each script's
globals/initializer immediately after registering it, and when `lazy_init`
is true it only registers them without initializing. -/
theorem load_abc_reverse_registration (n : Nat) (lazy : Bool) :
    (load_abc n lazy).filterMap regIndex = (List.range n).reverse ∧
      (lazy = true → (load_abc n lazy).filterMap initIndex = []) ∧
      (lazy = false →
        (load_abc n lazy).filterMap initIndex = (List.range n).reverse ∧
          ∀ k i, (load_abc n lazy)[k]? = some (AbcScriptEvent.registerScript i) →
            (load_abc n lazy)[k + 1]? = some (AbcScriptEvent.initScript i)) := by
  refine ⟨loadScriptsLoop_regs lazy _, fun h => ?_, fun h => ?_⟩
  · rw [h, load_abc, loadScriptsLoop_inits]
    rfl
  · subst h
    exact ⟨by rw [load_abc, loadScriptsLoop_inits]; rfl,
      fun k i hk => loadScriptsLoop_eager_adjacent _ k i hk⟩

/-- Witness for C6 at a three-script ABC file: registration happens in the
order 2, 1, 0, and an eager load also initializes in that order. -/
theorem load_abc_reverse_registration_witness :
    (load_abc 3 false).filterMap regIndex = [2, 1, 0] ∧
      (load_abc 3 false).filterMap initIndex = [2, 1, 0] :=
  ⟨(load_abc_reverse_registration 3 false).1,
    ((load_abc_reverse_registration 3 false).2.2 rfl).1⟩

end RuffleAvm2
